import Mathlib

/-!
# Linode StackScript resource driver

A shallow embedding of `linode/resource_linode_stackscript.go`: the four
lifecycle callbacks `resourceLinodeStackscriptRead`, `...Create`, `...Update`
and `...Delete`, together with the pieces of the Go standard library they call
(`strconv.ParseInt`, the `%d` and `%s` verbs of `fmt`).

The callbacks mutate a `*schema.ResourceData` and talk to a `linodego.Client`.
Here the resource data is a record that is passed in and returned, and the
client is a record of state transformers over an arbitrary remote state; every
call made on the client is appended to a call log carried next to the remote
state. A callback that panics on a nil pointer is recorded as such in its
outcome.
-/

namespace LinodeStackscript

/-! ## Go standard library: `strconv.ParseInt(s, 10, 64)` and `fmt` verb `%d` -/

/-- The two sentinel errors of package strconv. -/
inductive StrconvErr where
  | ErrSyntax
  | ErrRange
  deriving DecidableEq, Repr

/-- The text of `ErrSyntax.Error()` and `ErrRange.Error()`. -/
def StrconvErr.Error : StrconvErr → String
  | .ErrSyntax => "invalid syntax"
  | .ErrRange => "value out of range"

/-- The record `strconv.NumError`: the failing function, the input, the reason. -/
structure NumError where
  Func : String
  Num : String
  Err : StrconvErr
  deriving DecidableEq, Repr

/-- The text of `(*NumError).Error()`. The quoting of the input is done by
`strconv.Quote`, which is taken as a parameter. -/
def NumError.Error (quote : String → String) (e : NumError) : String :=
  "strconv." ++ e.Func ++ ": parsing " ++ quote e.Num ++ ": " ++ e.Err.Error

/-- The largest `uint64`. -/
def maxUint64 : Nat := 2 ^ 64 - 1

/-- The body of the digit loop of `strconv.ParseUint` for base 10 and bit size
64, with `n` the value accumulated so far. The result is the pair
`(value, error)` that `ParseUint` returns. -/
def ParseUintLoop : List Char → Nat → Nat × Option StrconvErr
  | [], n => (n, none)
  | c :: cs, n =>
    if '0' ≤ c ∧ c ≤ '9' then
      let d := c.toNat - '0'.toNat
      if n ≥ maxUint64 / 10 + 1 then
        (maxUint64, some .ErrRange)
      else
        let n10 := (n * 10) % 2 ^ 64
        let n1 := (n10 + d) % 2 ^ 64
        if n1 < n10 ∨ n1 > maxUint64 then
          (maxUint64, some .ErrRange)
        else
          ParseUintLoop cs n1
    else
      (0, some .ErrSyntax)

/-- The function `strconv.ParseUint(s, 10, 64)` on the characters of `s`. -/
def ParseUint (s : List Char) : Nat × Option StrconvErr :=
  match s with
  | [] => (0, some .ErrSyntax)
  | _ => ParseUintLoop s 0

/-- The conversion `int64(un)` of a `uint64`. -/
def toInt64 (un : Nat) : Int :=
  if un % 2 ^ 64 < 2 ^ 63 then (un % 2 ^ 64 : Nat) else ((un % 2 ^ 64 : Nat) : Int) - 2 ^ 64

/-- Negation of an `int64`, wrapping around. -/
def negInt64 (n : Int) : Int :=
  toInt64 ((-n) % 2 ^ 64).toNat

/-- The function `strconv.ParseInt(s, 10, 64)`. -/
def ParseInt (s : String) : Except NumError Int :=
  match s.toList with
  | [] => .error ⟨"ParseInt", s, .ErrSyntax⟩
  | c :: rest =>
    let neg := c == '-'
    let body := if c == '+' ∨ c == '-' then rest else c :: rest
    match ParseUint body with
    | (_, some .ErrSyntax) => .error ⟨"ParseInt", s, .ErrSyntax⟩
    | (un, _) =>
      let cutoff : Nat := 2 ^ 63
      if neg = false ∧ un ≥ cutoff then
        .error ⟨"ParseInt", s, .ErrRange⟩
      else if neg = true ∧ un > cutoff then
        .error ⟨"ParseInt", s, .ErrRange⟩
      else
        let n := toInt64 un
        .ok (if neg then negInt64 n else n)

/-- The byte `'0' + d` that the integer formatter of `fmt` writes for a digit. -/
def digitByte (d : Nat) : Char :=
  Char.ofNat ('0'.toNat + d)

/-- The digit loop of the integer formatter of `fmt` for base 10: digits are
written from the least significant one, in front of what is already in the
buffer. The first argument bounds the number of iterations. -/
def fmtUintLoop : Nat → Nat → List Char → List Char
  | 0, u, buf => digitByte u :: buf
  | fuel + 1, u, buf =>
    if u ≥ 10 then
      fmtUintLoop fuel (u / 10) (digitByte (u % 10) :: buf)
    else
      digitByte u :: buf

/-- The decimal digits of an unsigned value. -/
def fmtUint (u : Nat) : List Char :=
  fmtUintLoop u u []

/-- The result of `fmt.Sprintf("%d", n)` for a signed integer. -/
def fmtD (n : Int) : String :=
  if n < 0 then String.mk ('-' :: fmtUint (-n).toNat) else String.mk (fmtUint n.toNat)

/-- The range of the Go types `int64` and (on 64-bit targets) `int`. -/
def inInt64 (n : Int) : Prop :=
  -(2 : Int) ^ 63 ≤ n ∧ n < (2 : Int) ^ 63

instance (n : Int) : Decidable (inInt64 n) := by
  unfold inInt64; infer_instance

/-- Substring test on strings, as lists of characters. -/
def contains (s t : String) : Prop :=
  t.toList <:+: s.toList

instance (s t : String) : Decidable (contains s t) := by
  unfold contains; infer_instance

/-! ## The client library: entities, payloads, errors -/

/-- A `time.Time` value. The driver only calls `String()` on it, so a value is
represented by the text that method returns. -/
structure Time where
  text : String
  deriving DecidableEq, Repr

/-- The method `String()` of `time.Time`. -/
def Time.String (t : Time) : String :=
  t.text

/-- The record `linodego.StackscriptUDF`. -/
structure StackscriptUDF where
  Label : String
  Name : String
  Example : String
  OneOf : String
  ManyOf : String
  Default : String
  deriving DecidableEq, Repr

/-- The record `linodego.Stackscript`, the remote entity. The fields `Created`
and `Updated` have the pointer type `*time.Time`; `none` is the nil pointer. -/
structure Stackscript where
  ID : Int
  Username : String
  Label : String
  Description : String
  Images : List String
  DeploymentsTotal : Int
  DeploymentsActive : Int
  IsPublic : Bool
  Created : Option Time
  Updated : Option Time
  RevNote : String
  Script : String
  UserDefinedFields : List StackscriptUDF
  UserGravatarID : String
  deriving DecidableEq, Repr

/-- The record `linodego.StackscriptCreateOptions`, restricted to the fields the
driver fills in. -/
structure StackscriptCreateOptions where
  Label : String
  Description : String
  Images : List String
  IsPublic : Bool
  RevNote : String
  Script : String
  deriving DecidableEq, Repr

/-- The record `linodego.StackscriptUpdateOptions`, restricted to the fields the
driver fills in. -/
structure StackscriptUpdateOptions where
  Label : String
  Description : String
  Images : List String
  IsPublic : Bool
  RevNote : String
  Script : String
  deriving DecidableEq, Repr

/-- A non-nil `error` value returned by the client. `apiCode` is `some c` exactly
when the dynamic type of the value is `*linodego.Error` and its `Code` is `c`;
`Error` is the text of its `Error()` method. -/
structure ClientError where
  apiCode : Option Int
  Error : String
  deriving DecidableEq, Repr

/-- The test `lerr, ok := err.(*linodego.Error); ok && lerr.Code == 404`. -/
def ClientError.isNotFound (e : ClientError) : Bool :=
  e.apiCode == some 404

/-- The four methods of `linodego.Client` that the driver calls, as state
transformers over the state `R` of the remote system. -/
structure Client (R : Type) where
  GetStackscript : R → Int → Except ClientError Stackscript × R
  CreateStackscript : R → StackscriptCreateOptions → Except ClientError Stackscript × R
  UpdateStackscript : R → Int → StackscriptUpdateOptions → Except ClientError Stackscript × R
  DeleteStackscript : R → Int → Option ClientError × R

/-- One call made on the client, with its arguments. -/
inductive Call where
  | get (id : Int)
  | create (opts : StackscriptCreateOptions)
  | update (id : Int) (opts : StackscriptUpdateOptions)
  | delete (id : Int)
  deriving DecidableEq, Repr

/-- The remote state together with the log of the calls made on the client. -/
structure World (R : Type) where
  remote : R
  calls : List Call

/-- The call `client.GetStackscript(ctx, id)`, logged. -/
def World.GetStackscript {R : Type} (w : World R) (client : Client R) (id : Int) :
    Except ClientError Stackscript × World R :=
  ((client.GetStackscript w.remote id).1,
   ⟨(client.GetStackscript w.remote id).2, w.calls ++ [Call.get id]⟩)

/-- The call `client.CreateStackscript(ctx, opts)`, logged. -/
def World.CreateStackscript {R : Type} (w : World R) (client : Client R)
    (opts : StackscriptCreateOptions) : Except ClientError Stackscript × World R :=
  ((client.CreateStackscript w.remote opts).1,
   ⟨(client.CreateStackscript w.remote opts).2, w.calls ++ [Call.create opts]⟩)

/-- The call `client.UpdateStackscript(ctx, id, opts)`, logged. -/
def World.UpdateStackscript {R : Type} (w : World R) (client : Client R) (id : Int)
    (opts : StackscriptUpdateOptions) : Except ClientError Stackscript × World R :=
  ((client.UpdateStackscript w.remote id opts).1,
   ⟨(client.UpdateStackscript w.remote id opts).2, w.calls ++ [Call.update id opts]⟩)

/-- The call `client.DeleteStackscript(ctx, id)`, logged. -/
def World.DeleteStackscript {R : Type} (w : World R) (client : Client R) (id : Int) :
    Option ClientError × World R :=
  ((client.DeleteStackscript w.remote id).1,
   ⟨(client.DeleteStackscript w.remote id).2, w.calls ++ [Call.delete id]⟩)

/-! ## The resource data -/

/-- One element of the `user_defined_fields` list of the schema. -/
structure UserDefinedField where
  label : String
  name : String
  example_ : String
  one_of : String
  many_of : String
  default_ : String
  deriving DecidableEq, Repr

/-- The `*schema.ResourceData` of the resource: the identifier (`d.Id()`,
`d.SetId`) and one field per key of the schema (`d.Get`, `d.Set`). -/
structure ResourceData where
  id : String
  label : String
  script : String
  description : String
  rev_note : String
  is_public : Bool
  images : List String
  deployments_active : Int
  user_gravatar_id : String
  deployments_total : Int
  username : String
  created : String
  updated : String
  user_defined_fields : List UserDefinedField
  deriving DecidableEq, Repr

/-- Modelled from the spec: the helper `setStackScriptUserDefinedFields`, which
is called by the read callback and defined in another file of the package. The
spec says that the nested user-defined-field list is rebuilt from the remote
representation, each element carrying label, name, example value, one-of
constraint, many-of constraint and default value. -/
def setStackScriptUserDefinedFields (d : ResourceData) (ss : Stackscript) : ResourceData :=
  { d with
    user_defined_fields := ss.UserDefinedFields.map fun udf =>
      { label := udf.Label, name := udf.Name, example_ := udf.Example,
        one_of := udf.OneOf, many_of := udf.ManyOf, default_ := udf.Default } }

/-- What a callback leaves behind: the returned `error` (`none` for `nil`, else
its message), the resource data and the world after the call, and whether the
callback panicked instead of returning. After a panic nothing is returned, `err`
is `none`, and `d` and `world` are the values at the moment of the panic. -/
structure Outcome (R : Type) where
  err : Option String
  d : ResourceData
  world : World R
  panicked : Bool

/-! ## The four callbacks -/

/-- The callback `resourceLinodeStackscriptRead`. The conversion `int(id)` of
the parsed `int64` is the identity (`int` is 64 bits wide), and the results of
the `d.Set` calls are dropped, as in the source. The calls
`stackscript.Created.String()` and `stackscript.Updated.String()` dereference a
`*time.Time`: on a nil pointer the callback panics there, after the fields set
before that line. -/
def resourceLinodeStackscriptRead {R : Type} (quote : String → String) (client : Client R)
    (d : ResourceData) (w : World R) : Outcome R :=
  match ParseInt d.id with
  | .error err =>
    ⟨some ("Error parsing Linode Stackscript ID " ++ d.id ++ " as int: " ++ err.Error quote), d, w,
      false⟩
  | .ok id =>
    match w.GetStackscript client id with
    | (.error err, w1) =>
      if err.isNotFound then
        ⟨none, { d with id := "" }, w1, false⟩
      else
        ⟨some ("Error finding the specified Linode Stackscript: " ++ err.Error), d, w1, false⟩
    | (.ok stackscript, w1) =>
      let d := { d with label := stackscript.Label }
      let d := { d with script := stackscript.Script }
      let d := { d with description := stackscript.Description }
      let d := { d with is_public := stackscript.IsPublic }
      let d := { d with images := stackscript.Images }
      let d := { d with rev_note := stackscript.RevNote }
      let d := { d with deployments_active := stackscript.DeploymentsActive }
      let d := { d with deployments_total := stackscript.DeploymentsTotal }
      let d := { d with username := stackscript.Username }
      let d := { d with user_gravatar_id := stackscript.UserGravatarID }
      match stackscript.Created with
      | none => ⟨none, d, w1, true⟩
      | some created =>
        let d := { d with created := created.String }
        match stackscript.Updated with
        | none => ⟨none, d, w1, true⟩
        | some updated =>
          let d := { d with updated := updated.String }
          let d := setStackScriptUserDefinedFields d stackscript
          ⟨none, d, w1, false⟩

/-- The callback `resourceLinodeStackscriptCreate`. The argument `meta_` is
`some client` when the handle passed in is a `linodego.Client`. -/
def resourceLinodeStackscriptCreate {R : Type} (quote : String → String)
    (meta_ : Option (Client R)) (d : ResourceData) (w : World R) : Outcome R :=
  match meta_ with
  | none => ⟨some "Invalid Client when creating Linode Stackscript", d, w, false⟩
  | some client =>
    let createOpts : StackscriptCreateOptions :=
      { Label := d.label, Script := d.script, Description := d.description,
        IsPublic := d.is_public, RevNote := d.rev_note, Images := [] }
    let createOpts := d.images.foldl
      (fun (o : StackscriptCreateOptions) image => { o with Images := o.Images ++ [image] })
      createOpts
    match w.CreateStackscript client createOpts with
    | (.error err, w1) =>
      ⟨some ("Error creating a Linode Stackscript: " ++ err.Error), d, w1, false⟩
    | (.ok stackscript, w1) =>
      let d := { d with id := fmtD stackscript.ID }
      resourceLinodeStackscriptRead quote client d w1

/-- The callback `resourceLinodeStackscriptUpdate`. -/
def resourceLinodeStackscriptUpdate {R : Type} (quote : String → String) (client : Client R)
    (d : ResourceData) (w : World R) : Outcome R :=
  match ParseInt d.id with
  | .error err =>
    ⟨some ("Error parsing Linode Stackscript id " ++ d.id ++ " as int: " ++ err.Error quote), d, w,
      false⟩
  | .ok id =>
    let updateOpts : StackscriptUpdateOptions :=
      { Label := d.label, Script := d.script, Description := d.description,
        IsPublic := d.is_public, RevNote := d.rev_note, Images := [] }
    let updateOpts := d.images.foldl
      (fun (o : StackscriptUpdateOptions) image => { o with Images := o.Images ++ [image] })
      updateOpts
    match w.UpdateStackscript client id updateOpts with
    | (.error err, w1) =>
      ⟨some ("Error updating Linode Stackscript " ++ fmtD id ++ ": " ++ err.Error), d, w1, false⟩
    | (.ok _, w1) =>
      resourceLinodeStackscriptRead quote client d w1

/-- The callback `resourceLinodeStackscriptDelete`. -/
def resourceLinodeStackscriptDelete {R : Type} (client : Client R)
    (d : ResourceData) (w : World R) : Outcome R :=
  match ParseInt d.id with
  | .error _ =>
    ⟨some ("Error parsing Linode Stackscript id " ++ d.id ++ " as int"), d, w, false⟩
  | .ok id =>
    match w.DeleteStackscript client id with
    | (some err, w1) =>
      if err.isNotFound then
        ⟨none, d, w1, false⟩
      else
        ⟨some ("Error deleting Linode Stackscript " ++ fmtD id ++ ": " ++ err.Error), d, w1,
          false⟩
    | (none, w1) => ⟨none, d, w1, false⟩


/-- The remote, in state `r`, stores the fields of a create payload unchanged and
returns them on fetch: an entity returned by a successful create call has an ID
in the range of the Go type `int`, and fetching that ID in the state the create
call leaves behind succeeds with an entity whose settable fields are those of
the payload. -/
def StoresCreatePayload {R : Type} (client : Client R) (r : R) : Prop :=
  ∀ (o : StackscriptCreateOptions) (e : Stackscript) (r1 : R),
    client.CreateStackscript r o = (.ok e, r1) →
      inInt64 e.ID ∧
      ∃ (e1 : Stackscript) (r2 : R), client.GetStackscript r1 e.ID = (.ok e1, r2) ∧
        e1.Label = o.Label ∧ e1.Script = o.Script ∧ e1.Description = o.Description ∧
        e1.IsPublic = o.IsPublic ∧ e1.RevNote = o.RevNote ∧ e1.Images = o.Images

/-! ## Reference remotes

Two concrete clients on which the theorems below are instantiated. -/

/-- The entity an in-memory remote stores for a create payload under a given ID. -/
def entityOf (id : Int) (o : StackscriptCreateOptions) : Stackscript :=
  { ID := id, Username := "owner", Label := o.Label, Description := o.Description,
    Images := o.Images, DeploymentsTotal := 0, DeploymentsActive := 0, IsPublic := o.IsPublic,
    Created := some ⟨"2020-01-01 00:00:00 +0000 UTC"⟩,
    Updated := some ⟨"2020-01-01 00:00:00 +0000 UTC"⟩,
    RevNote := o.RevNote, Script := o.Script, UserDefinedFields := [], UserGravatarID := "g" }

/-- The API error an in-memory remote reports for an ID it does not hold. -/
def notFound : ClientError :=
  ⟨some 404, "[404] Not found"⟩

/-- An in-memory remote: the state is the list of stored entities, a new entity
gets the ID 123 plus the number of stored ones, and every operation on an ID
that is not stored reports `notFound`. -/
def memClient : Client (List Stackscript) where
  GetStackscript r id :=
    match r.find? (fun e => e.ID == id) with
    | some e => (.ok e, r)
    | none => (.error notFound, r)
  CreateStackscript r o := (.ok (entityOf (123 + r.length) o), r ++ [entityOf (123 + r.length) o])
  UpdateStackscript r id o :=
    match r.find? (fun e => e.ID == id) with
    | some _ =>
      (.ok (entityOf id ⟨o.Label, o.Description, o.Images, o.IsPublic, o.RevNote, o.Script⟩),
       r.map fun e =>
        if e.ID == id then
          entityOf id ⟨o.Label, o.Description, o.Images, o.IsPublic, o.RevNote, o.Script⟩
        else e)
    | none => (.error notFound, r)
  DeleteStackscript r id :=
    match r.find? (fun e => e.ID == id) with
    | some _ => (none, r.filter fun e => !(e.ID == id))
    | none => (some notFound, r)

/-- A remote on which every call fails with the given error. -/
def failClient (e : ClientError) : Client Unit where
  GetStackscript r _ := (.error e, r)
  CreateStackscript r _ := (.error e, r)
  UpdateStackscript r _ _ := (.error e, r)
  DeleteStackscript r _ := (some e, r)

/-- A configuration with the given identifier. -/
def sampleData (id : String) : ResourceData :=
  { id := id, label := "setup", script := "#!/bin/bash", description := "d", rev_note := "",
    is_public := false, images := ["linode/ubuntu20.04", "linode/debian10"],
    deployments_active := 0, user_gravatar_id := "", deployments_total := 0, username := "",
    created := "", updated := "", user_defined_fields := [] }

/-- An entity with ID 123 whose `Created` is the nil pointer. -/
def noCreated : Stackscript :=
  { entityOf 123 ⟨"web", "desc", ["a", "b"], true, "r1", "echo"⟩ with Created := none }

/-! ## Decimal round trip: `ParseInt` after `%d` -/

theorem digitByte_spec (d : Nat) (h : d < 10) :
    ('0' ≤ digitByte d ∧ digitByte d ≤ '9') ∧ (digitByte d).toNat - '0'.toNat = d ∧
      (digitByte d == '+') = false ∧ (digitByte d == '-') = false := by
  interval_cases d <;> decide

theorem fmtUintLoop_append (fuel : Nat) : ∀ (u : Nat) (buf : List Char),
    fmtUintLoop fuel u buf = fmtUintLoop fuel u [] ++ buf := by
  induction fuel with
  | zero => intro u buf; simp [fmtUintLoop]
  | succ k ih =>
    intro u buf
    simp only [fmtUintLoop]
    split
    · rw [ih (u / 10) (digitByte (u % 10) :: buf), ih (u / 10) [digitByte (u % 10)]]
      simp
    · simp

theorem ParseUintLoop_digit (d n : Nat) (rest : List Char) (hd : d < 10)
    (hn : n * 10 + d < 2 ^ 64) :
    ParseUintLoop (digitByte d :: rest) n = ParseUintLoop rest (n * 10 + d) := by
  obtain ⟨hr, hv, -, -⟩ := digitByte_spec d hd
  have h1 : ¬ (n ≥ maxUint64 / 10 + 1) := by
    simp only [maxUint64]; omega
  have h2 : (n * 10) % 2 ^ 64 = n * 10 := Nat.mod_eq_of_lt (by omega)
  have h3 : (n * 10 + d) % 2 ^ 64 = n * 10 + d := Nat.mod_eq_of_lt hn
  have h4 : ¬ (n * 10 + d < n * 10 ∨ n * 10 + d > maxUint64) := by
    simp only [maxUint64]; omega
  simp only [ParseUintLoop, hr, and_self, if_true, hv, h1, if_false, h2, h3, h4]

theorem ParseUintLoop_fmtUintLoop (fuel : Nat) : ∀ (u : Nat) (rest : List Char),
    u ≤ fuel → u < 2 ^ 64 →
    ParseUintLoop (fmtUintLoop fuel u [] ++ rest) 0 = ParseUintLoop rest u := by
  induction fuel with
  | zero =>
    intro u rest hu _
    have : u = 0 := by omega
    subst this
    simpa [fmtUintLoop] using ParseUintLoop_digit 0 0 rest (by omega) (by omega)
  | succ k ih =>
    intro u rest hu hlt
    simp only [fmtUintLoop]
    split
    · rw [fmtUintLoop_append k (u / 10) [digitByte (u % 10)], List.append_assoc,
        ih (u / 10) _ (by omega) (by omega)]
      simp only [List.singleton_append]
      rw [ParseUintLoop_digit (u % 10) (u / 10) rest (by omega) (by omega)]
      congr 1
      omega
    · simpa using ParseUintLoop_digit u 0 rest (by omega) (by omega)

theorem fmtUintLoop_head (fuel : Nat) : ∀ (u : Nat) (buf : List Char), u ≤ fuel →
    ∃ d tl, d < 10 ∧ fmtUintLoop fuel u buf = digitByte d :: tl := by
  induction fuel with
  | zero => intro u buf hu; exact ⟨u, buf, by omega, by simp [fmtUintLoop]⟩
  | succ k ih =>
    intro u buf hu
    simp only [fmtUintLoop]
    split
    · exact ih (u / 10) _ (by omega)
    · exact ⟨u, buf, by omega, rfl⟩

theorem ParseUint_fmtUint (u : Nat) (h : u < 2 ^ 64) : ParseUint (fmtUint u) = (u, none) := by
  obtain ⟨d, tl, -, hd⟩ := fmtUintLoop_head u u [] (Nat.le_refl u)
  have := ParseUintLoop_fmtUintLoop u u [] (Nat.le_refl u) h
  simp only [List.append_nil] at this
  unfold ParseUint fmtUint
  rw [hd] at this ⊢
  simpa [ParseUintLoop] using this

theorem toInt64_of_lt (u : Nat) (h : u < 2 ^ 63) : toInt64 u = u := by
  have h1 : u % 2 ^ 64 = u := Nat.mod_eq_of_lt (by omega)
  unfold toInt64
  rw [h1]
  split <;> omega

theorem negInt64_toInt64 (u : Nat) (h : u ≤ 2 ^ 63) : negInt64 (toInt64 u) = -(u : Int) := by
  have h1 : u % 2 ^ 64 = u := Nat.mod_eq_of_lt (by omega)
  unfold negInt64 toInt64
  rw [h1]
  split <;> split <;> omega

/-- Parsing the decimal rendering of a 64-bit integer gives the integer back. -/
theorem ParseInt_fmtD (n : Int) (h : inInt64 n) : ParseInt (fmtD n) = .ok n := by
  obtain ⟨hlo, hhi⟩ := h
  by_cases hn : n < 0
  · have hu : (-n).toNat < 2 ^ 64 := by omega
    have hp := ParseUint_fmtUint (-n).toNat hu
    have e1 : (('-' == '+') = true ∨ ('-' == '-') = true) := by decide
    have e2 : ¬ (('-' == '-') = false ∧ (-n).toNat ≥ 2 ^ 63) := by
      intro hc; exact absurd hc.1 (by decide)
    have e3 : ¬ (('-' == '-') = true ∧ (-n).toNat > 2 ^ 63) := by omega
    have e4 : ('-' == '-') = true := by decide
    simp only [fmtD, hn, if_true, ParseInt, String.toList, if_pos e1, hp, if_neg e2, if_neg e3,
      if_pos e4]
    rw [negInt64_toInt64 _ (by omega)]
    congr 1
    omega
  · obtain ⟨d, tl, hd10, hd⟩ := fmtUintLoop_head n.toNat n.toNat [] (Nat.le_refl _)
    obtain ⟨-, -, hplus, hminus⟩ := digitByte_spec d hd10
    have hu : n.toNat < 2 ^ 64 := by omega
    have hp := ParseUint_fmtUint n.toNat hu
    unfold fmtUint at hp
    rw [hd] at hp
    have e2 : ¬ (n.toNat ≥ 2 ^ 63) := by omega
    simp only [fmtD, hn, if_false, ParseInt, String.toList, fmtUint, hd, hplus, hminus,
      Bool.false_eq_true, or_self, hp, true_and, false_and, if_neg e2]
    rw [toInt64_of_lt _ (by omega)]
    congr 1
    omega
/-! ## The payload loops -/

theorem createOpts_images (l : List String) : ∀ o : StackscriptCreateOptions,
    l.foldl (fun (o : StackscriptCreateOptions) image => { o with Images := o.Images ++ [image] })
      o = { o with Images := o.Images ++ l } := by
  induction l with
  | nil => intro o; simp
  | cons x xs ih => intro o; simp [List.foldl, ih]

theorem updateOpts_images (l : List String) : ∀ o : StackscriptUpdateOptions,
    l.foldl (fun (o : StackscriptUpdateOptions) image => { o with Images := o.Images ++ [image] })
      o = { o with Images := o.Images ++ l } := by
  induction l with
  | nil => intro o; simp
  | cons x xs ih => intro o; simp [List.foldl, ih]

/-! ## The call log -/

theorem read_calls_extend {R : Type} (quote : String → String) (client : Client R)
    (d : ResourceData) (w : World R) :
    ∃ rest, (resourceLinodeStackscriptRead quote client d w).world.calls = w.calls ++ rest := by
  cases hid : ParseInt d.id with
  | error ne => exact ⟨[], by simp [resourceLinodeStackscriptRead, hid]⟩
  | ok id =>
    refine ⟨[Call.get id], ?_⟩
    cases hget : (client.GetStackscript w.remote id).1 with
    | error e =>
      by_cases hnf : e.isNotFound = true
      · simp [resourceLinodeStackscriptRead, hid, World.GetStackscript, hget, hnf]
      · simp [resourceLinodeStackscriptRead, hid, World.GetStackscript, hget, hnf]
    | ok e =>
      cases hcr : e.Created <;> cases hup : e.Updated <;>
        simp [resourceLinodeStackscriptRead, hid, World.GetStackscript, hget, hcr, hup]

theorem update_calls {R : Type} (quote : String → String) (client : Client R)
    (d : ResourceData) (w : World R) (id : Int) (hid : ParseInt d.id = .ok id) :
    ∃ rest, (resourceLinodeStackscriptUpdate quote client d w).world.calls =
      w.calls ++ Call.update id
        { Label := d.label, Script := d.script, Description := d.description,
          IsPublic := d.is_public, RevNote := d.rev_note, Images := d.images } :: rest := by
  cases hu : (client.UpdateStackscript w.remote id
      { Label := d.label, Script := d.script, Description := d.description,
        IsPublic := d.is_public, RevNote := d.rev_note, Images := d.images }).1 with
  | error e =>
    exact ⟨[], by
      simp [resourceLinodeStackscriptUpdate, hid, updateOpts_images, World.UpdateStackscript, hu]⟩
  | ok e =>
    obtain ⟨rest, hr⟩ := read_calls_extend quote client d
      ⟨(client.UpdateStackscript w.remote id
        { Label := d.label, Script := d.script, Description := d.description,
          IsPublic := d.is_public, RevNote := d.rev_note, Images := d.images }).2,
        w.calls ++ [Call.update id
          { Label := d.label, Script := d.script, Description := d.description,
            IsPublic := d.is_public, RevNote := d.rev_note, Images := d.images }]⟩
    exact ⟨rest, by
      simp [resourceLinodeStackscriptUpdate, hid, updateOpts_images, World.UpdateStackscript, hu,
        hr]⟩

theorem create_calls {R : Type} (quote : String → String) (client : Client R)
    (d : ResourceData) (w : World R) :
    ∃ rest, (resourceLinodeStackscriptCreate quote (some client) d w).world.calls =
      w.calls ++ Call.create
        { Label := d.label, Script := d.script, Description := d.description,
          IsPublic := d.is_public, RevNote := d.rev_note, Images := d.images } :: rest := by
  cases hc : (client.CreateStackscript w.remote
      { Label := d.label, Script := d.script, Description := d.description,
        IsPublic := d.is_public, RevNote := d.rev_note, Images := d.images }).1 with
  | error e =>
    exact ⟨[], by
      simp [resourceLinodeStackscriptCreate, createOpts_images, World.CreateStackscript, hc]⟩
  | ok e =>
    obtain ⟨rest, hr⟩ := read_calls_extend quote client { d with id := fmtD e.ID }
      ⟨(client.CreateStackscript w.remote
        { Label := d.label, Script := d.script, Description := d.description,
          IsPublic := d.is_public, RevNote := d.rev_note, Images := d.images }).2,
        w.calls ++ [Call.create
          { Label := d.label, Script := d.script, Description := d.description,
            IsPublic := d.is_public, RevNote := d.rev_note, Images := d.images }]⟩
    exact ⟨rest, by
      simp [resourceLinodeStackscriptCreate, createOpts_images, World.CreateStackscript, hc,
        hr]⟩

/-! ## Messages -/

theorem contains_mid (a t b : String) : contains (a ++ t ++ b) t := by
  unfold contains
  exact ⟨a.toList, b.toList, by simp [String.toList]⟩

/-! ## The in-memory remote -/

theorem memClient_stores_create_payload : StoresCreatePayload memClient [] := by
  intro o e r1 h
  simp only [memClient, List.length_nil, List.nil_append, Prod.mk.injEq, Except.ok.injEq] at h
  obtain ⟨he, hr⟩ := h
  subst he hr
  refine ⟨by simp only [entityOf]; decide, entityOf (123 + ([] : List Stackscript).length) o,
    [entityOf (123 + ([] : List Stackscript).length) o], ?_, rfl, rfl, rfl, rfl, rfl, rfl⟩
  simp [memClient, entityOf]

/-! ## The callbacks -/

/-- Claim C1: when the identifier parses as a base-10 integer and the fetch fails
with a not-found (404) API error, the read callback returns (it does not panic),
returns no error and sets the identifier to the empty string; the other fields
are left as they were. -/
theorem read_not_found_clears_id {R : Type} (quote : String → String) (client : Client R)
    (d : ResourceData) (w : World R) (id : Int) (e : ClientError) (r1 : R)
    (hid : ParseInt d.id = .ok id)
    (hget : client.GetStackscript w.remote id = (.error e, r1))
    (h404 : e.apiCode = some 404) :
    (resourceLinodeStackscriptRead quote client d w).err = none ∧
      (resourceLinodeStackscriptRead quote client d w).d.id = "" ∧
      (resourceLinodeStackscriptRead quote client d w).d = { d with id := "" } ∧
      (resourceLinodeStackscriptRead quote client d w).panicked = false := by
  have hnf : e.isNotFound = true := by simp [ClientError.isNotFound, h404]
  simp [resourceLinodeStackscriptRead, hid, World.GetStackscript, hget, hnf]

/-- Instance of C1: identifier 5 on an empty in-memory remote. -/
theorem read_not_found_clears_id_witness :
    (ParseInt (sampleData "5").id = .ok 5 ∧
      memClient.GetStackscript [] 5 = (.error notFound, []) ∧ notFound.apiCode = some 404) ∧
    (resourceLinodeStackscriptRead id memClient (sampleData "5") ⟨[], []⟩).err = none ∧
      (resourceLinodeStackscriptRead id memClient (sampleData "5") ⟨[], []⟩).d.id = "" ∧
      (resourceLinodeStackscriptRead id memClient (sampleData "5") ⟨[], []⟩).d =
        { sampleData "5" with id := "" } ∧
      (resourceLinodeStackscriptRead id memClient (sampleData "5") ⟨[], []⟩).panicked = false :=
  ⟨⟨rfl, rfl, rfl⟩,
    read_not_found_clears_id id memClient (sampleData "5") ⟨[], []⟩ 5 notFound [] rfl rfl rfl⟩

/-- Claim C2: when the identifier does not parse as a base-10 integer, each of the
read, update and delete callbacks returns its parse error (it does not panic),
leaves the resource data unchanged and leaves the world unchanged: no call is
logged and the remote state is the one it started from. -/
theorem parse_failure_no_call {R : Type} (quote : String → String) (client : Client R)
    (d : ResourceData) (w : World R) (ne : NumError)
    (hid : ParseInt d.id = .error ne) :
    resourceLinodeStackscriptRead quote client d w =
        ⟨some ("Error parsing Linode Stackscript ID " ++ d.id ++ " as int: " ++ ne.Error quote),
          d, w, false⟩ ∧
      resourceLinodeStackscriptUpdate quote client d w =
        ⟨some ("Error parsing Linode Stackscript id " ++ d.id ++ " as int: " ++ ne.Error quote),
          d, w, false⟩ ∧
      resourceLinodeStackscriptDelete client d w =
        ⟨some ("Error parsing Linode Stackscript id " ++ d.id ++ " as int"), d, w, false⟩ := by
  simp [resourceLinodeStackscriptRead, resourceLinodeStackscriptUpdate,
    resourceLinodeStackscriptDelete, hid]

/-- Instance of C2: the identifier `abc` on an in-memory remote that holds an
entity. -/
theorem parse_failure_no_call_witness :
    ParseInt (sampleData "abc").id = .error ⟨"ParseInt", "abc", .ErrSyntax⟩ ∧
    (resourceLinodeStackscriptRead id memClient (sampleData "abc") ⟨[entityOf 1 ⟨"", "", [], false, "", ""⟩], []⟩ =
        ⟨some ("Error parsing Linode Stackscript ID " ++ (sampleData "abc").id ++ " as int: " ++
            NumError.Error id ⟨"ParseInt", "abc", .ErrSyntax⟩),
          sampleData "abc", ⟨[entityOf 1 ⟨"", "", [], false, "", ""⟩], []⟩, false⟩ ∧
      resourceLinodeStackscriptUpdate id memClient (sampleData "abc") ⟨[entityOf 1 ⟨"", "", [], false, "", ""⟩], []⟩ =
        ⟨some ("Error parsing Linode Stackscript id " ++ (sampleData "abc").id ++ " as int: " ++
            NumError.Error id ⟨"ParseInt", "abc", .ErrSyntax⟩),
          sampleData "abc", ⟨[entityOf 1 ⟨"", "", [], false, "", ""⟩], []⟩, false⟩ ∧
      resourceLinodeStackscriptDelete memClient (sampleData "abc") ⟨[entityOf 1 ⟨"", "", [], false, "", ""⟩], []⟩ =
        ⟨some ("Error parsing Linode Stackscript id " ++ (sampleData "abc").id ++ " as int"),
          sampleData "abc", ⟨[entityOf 1 ⟨"", "", [], false, "", ""⟩], []⟩, false⟩) :=
  ⟨rfl, parse_failure_no_call id memClient (sampleData "abc") _ _ rfl⟩

/-- The strings named by C2 are rejected by `ParseInt`: a non-numeric string and
the empty string give a syntax error, a value beyond 64 bits a range error. -/
theorem ParseInt_rejects :
    ParseInt "abc" = .error ⟨"ParseInt", "abc", .ErrSyntax⟩ ∧
      ParseInt "" = .error ⟨"ParseInt", "", .ErrSyntax⟩ ∧
      ParseInt "12a" = .error ⟨"ParseInt", "12a", .ErrSyntax⟩ ∧
      ParseInt "9223372036854775808" =
        .error ⟨"ParseInt", "9223372036854775808", .ErrRange⟩ :=
  ⟨rfl, rfl, rfl, rfl⟩

/-- Claim C3: deleting twice. When the identifier parses as an integer, the first
delete returned no error, and the remote it left behind reports a not-found
(404) API error whenever deleting that ID again fails, the second delete on the
same resource data returns (it does not panic) and returns no error. -/
theorem delete_twice_no_error {R : Type} (client : Client R) (d : ResourceData) (w : World R)
    (id : Int) (hid : ParseInt d.id = .ok id)
    (_hfirst : (resourceLinodeStackscriptDelete client d w).err = none)
    (hgone : ∀ e, (client.DeleteStackscript
        (resourceLinodeStackscriptDelete client d w).world.remote id).1 = some e →
        e.apiCode = some 404) :
    (resourceLinodeStackscriptDelete client d w).d = d ∧
      (resourceLinodeStackscriptDelete client (resourceLinodeStackscriptDelete client d w).d
        (resourceLinodeStackscriptDelete client d w).world).err = none ∧
      (resourceLinodeStackscriptDelete client (resourceLinodeStackscriptDelete client d w).d
        (resourceLinodeStackscriptDelete client d w).world).panicked = false := by
  have hd : (resourceLinodeStackscriptDelete client d w).d = d := by
    simp only [resourceLinodeStackscriptDelete, hid, World.DeleteStackscript]
    split
    · split <;> rfl
    · rfl
  refine ⟨hd, ?_⟩
  rw [hd]
  generalize (resourceLinodeStackscriptDelete client d w).world = w1 at hgone ⊢
  simp only [resourceLinodeStackscriptDelete, hid, World.DeleteStackscript]
  split
  · rename_i err w2 heq
    have h1 : (client.DeleteStackscript w1.remote id).1 = some err := by
      simpa using congrArg Prod.fst heq
    have hnf : err.isNotFound = true := by simp [ClientError.isNotFound, hgone err h1]
    simp [hnf]
  · exact ⟨rfl, rfl⟩

/-- Instance of C3: an in-memory remote holding entity 123, deleted twice. -/
theorem delete_twice_no_error_witness :
    (ParseInt (sampleData "123").id = .ok 123 ∧
      (resourceLinodeStackscriptDelete memClient (sampleData "123")
        ⟨[entityOf 123 ⟨"", "", [], false, "", ""⟩], []⟩).err = none) ∧
    (resourceLinodeStackscriptDelete memClient (sampleData "123")
        ⟨[entityOf 123 ⟨"", "", [], false, "", ""⟩], []⟩).d = sampleData "123" ∧
      (resourceLinodeStackscriptDelete memClient
        (resourceLinodeStackscriptDelete memClient (sampleData "123")
          ⟨[entityOf 123 ⟨"", "", [], false, "", ""⟩], []⟩).d
        (resourceLinodeStackscriptDelete memClient (sampleData "123")
          ⟨[entityOf 123 ⟨"", "", [], false, "", ""⟩], []⟩).world).err = none ∧
      (resourceLinodeStackscriptDelete memClient
        (resourceLinodeStackscriptDelete memClient (sampleData "123")
          ⟨[entityOf 123 ⟨"", "", [], false, "", ""⟩], []⟩).d
        (resourceLinodeStackscriptDelete memClient (sampleData "123")
          ⟨[entityOf 123 ⟨"", "", [], false, "", ""⟩], []⟩).world).panicked = false :=
  ⟨⟨rfl, rfl⟩,
    delete_twice_no_error memClient (sampleData "123")
      ⟨[entityOf 123 ⟨"", "", [], false, "", ""⟩], []⟩ 123 rfl rfl
      (by intro e he; cases he; rfl)⟩

/-- Claim C9: the read callback returns an error exactly when the identifier
fails to parse or the fetch fails with an error that is not a 404 API error, and
the delete callback returns an error exactly when the identifier fails to parse
or the delete call fails with an error that is not a 404 API error. -/
theorem error_iff_parse_or_non_404 {R : Type} (quote : String → String) (client : Client R)
    (d : ResourceData) (w : World R) :
    ((resourceLinodeStackscriptRead quote client d w).err ≠ none ↔
        (∃ ne, ParseInt d.id = .error ne) ∨
        (∃ id e, ParseInt d.id = .ok id ∧ (client.GetStackscript w.remote id).1 = .error e ∧
          e.apiCode ≠ some 404)) ∧
      ((resourceLinodeStackscriptDelete client d w).err ≠ none ↔
        (∃ ne, ParseInt d.id = .error ne) ∨
        (∃ id e, ParseInt d.id = .ok id ∧ (client.DeleteStackscript w.remote id).1 = some e ∧
          e.apiCode ≠ some 404)) := by
  constructor
  · cases hid : ParseInt d.id with
    | error ne => simp [resourceLinodeStackscriptRead, hid]
    | ok id =>
      cases hget : (client.GetStackscript w.remote id).1 with
      | error e =>
        by_cases h404 : e.apiCode = some 404
        · simp [resourceLinodeStackscriptRead, hid, World.GetStackscript, hget,
            ClientError.isNotFound, h404]
        · simp [resourceLinodeStackscriptRead, hid, World.GetStackscript, hget,
            ClientError.isNotFound, h404]
      | ok e =>
      cases hcr : e.Created <;> cases hup : e.Updated <;>
        simp [resourceLinodeStackscriptRead, hid, World.GetStackscript, hget, hcr, hup]
  · cases hid : ParseInt d.id with
    | error ne => simp [resourceLinodeStackscriptDelete, hid]
    | ok id =>
      cases hdel : (client.DeleteStackscript w.remote id).1 with
      | some e =>
        by_cases h404 : e.apiCode = some 404
        · simp [resourceLinodeStackscriptDelete, hid, World.DeleteStackscript, hdel,
            ClientError.isNotFound, h404]
        · simp [resourceLinodeStackscriptDelete, hid, World.DeleteStackscript, hdel,
            ClientError.isNotFound, h404]
      | none => simp [resourceLinodeStackscriptDelete, hid, World.DeleteStackscript, hdel]

/-- Claim C6: a failed remote call leaves the local state as it was. If the create
call fails, the create callback returns an error and the resource data,
identifier included, is unchanged. If the identifier is numeric and the update
call fails, the update callback returns an error, the resource data is
unchanged, and the update call is the only call made: no fetch follows. -/
theorem failed_call_keeps_data {R : Type} (quote : String → String) (client : Client R)
    (d : ResourceData) (w : World R) :
    (∀ e r1,
      client.CreateStackscript w.remote
          { Label := d.label, Script := d.script, Description := d.description,
            IsPublic := d.is_public, RevNote := d.rev_note, Images := d.images } = (.error e, r1) →
        (resourceLinodeStackscriptCreate quote (some client) d w).err =
            some ("Error creating a Linode Stackscript: " ++ e.Error) ∧
          (resourceLinodeStackscriptCreate quote (some client) d w).d = d ∧
          (resourceLinodeStackscriptCreate quote (some client) d w).d.id = d.id) ∧
    (∀ id e r1, ParseInt d.id = .ok id →
      client.UpdateStackscript w.remote id
          { Label := d.label, Script := d.script, Description := d.description,
            IsPublic := d.is_public, RevNote := d.rev_note, Images := d.images } = (.error e, r1) →
        (resourceLinodeStackscriptUpdate quote client d w).err =
            some ("Error updating Linode Stackscript " ++ fmtD id ++ ": " ++ e.Error) ∧
          (resourceLinodeStackscriptUpdate quote client d w).d = d ∧
          (resourceLinodeStackscriptUpdate quote client d w).world.calls =
            w.calls ++ [Call.update id
              { Label := d.label, Script := d.script, Description := d.description,
                IsPublic := d.is_public, RevNote := d.rev_note, Images := d.images }]) := by
  constructor
  · intro e r1 hc
    simp [resourceLinodeStackscriptCreate, createOpts_images, World.CreateStackscript, hc]
  · intro id e r1 hid hu
    simp [resourceLinodeStackscriptUpdate, hid, updateOpts_images, World.UpdateStackscript, hu]

/-- Instance of C6: a remote on which every call fails with a 500 error. -/
theorem failed_call_keeps_data_witness :
    ((resourceLinodeStackscriptCreate id (some (failClient ⟨some 500, "[500] boom"⟩))
          (sampleData "") ⟨(), []⟩).err =
        some ("Error creating a Linode Stackscript: " ++ "[500] boom") ∧
      (resourceLinodeStackscriptCreate id (some (failClient ⟨some 500, "[500] boom"⟩))
          (sampleData "") ⟨(), []⟩).d = sampleData "" ∧
      (resourceLinodeStackscriptCreate id (some (failClient ⟨some 500, "[500] boom"⟩))
          (sampleData "") ⟨(), []⟩).d.id = "") ∧
    (ParseInt (sampleData "42").id = .ok 42 ∧
      (resourceLinodeStackscriptUpdate id (failClient ⟨some 500, "[500] boom"⟩)
          (sampleData "42") ⟨(), []⟩).err =
        some ("Error updating Linode Stackscript " ++ fmtD 42 ++ ": " ++ "[500] boom") ∧
      (resourceLinodeStackscriptUpdate id (failClient ⟨some 500, "[500] boom"⟩)
          (sampleData "42") ⟨(), []⟩).d = sampleData "42" ∧
      (resourceLinodeStackscriptUpdate id (failClient ⟨some 500, "[500] boom"⟩)
          (sampleData "42") ⟨(), []⟩).world.calls =
        [] ++ [Call.update 42
          { Label := "setup", Script := "#!/bin/bash", Description := "d",
            IsPublic := false, RevNote := "",
            Images := ["linode/ubuntu20.04", "linode/debian10"] }]) :=
  ⟨(failed_call_keeps_data id (failClient ⟨some 500, "[500] boom"⟩) (sampleData "")
      ⟨(), []⟩).1 ⟨some 500, "[500] boom"⟩ () rfl,
    rfl,
    (failed_call_keeps_data id (failClient ⟨some 500, "[500] boom"⟩) (sampleData "42")
      ⟨(), []⟩).2 42 ⟨some 500, "[500] boom"⟩ () rfl rfl⟩

/-- The read callback on an entity whose two timestamps are present: when the
identifier is numeric and the fetch succeeds with such an entity, the callback
returns no error and does not panic, keeps the identifier, and copies every
remote field into the resource data; the timestamps are stored as their string
renderings and the user-defined-field list is rebuilt element by element. -/
theorem read_copies_entity_with_timestamps {R : Type} (quote : String → String)
    (client : Client R) (d : ResourceData) (w : World R) (id : Int) (e : Stackscript) (r1 : R)
    (created updated : Time)
    (hid : ParseInt d.id = .ok id)
    (hget : client.GetStackscript w.remote id = (.ok e, r1))
    (hcr : e.Created = some created) (hup : e.Updated = some updated) :
    (resourceLinodeStackscriptRead quote client d w).err = none ∧
      (resourceLinodeStackscriptRead quote client d w).panicked = false ∧
      (resourceLinodeStackscriptRead quote client d w).d =
        { id := d.id, label := e.Label, script := e.Script, description := e.Description,
          rev_note := e.RevNote, is_public := e.IsPublic, images := e.Images,
          deployments_active := e.DeploymentsActive, user_gravatar_id := e.UserGravatarID,
          deployments_total := e.DeploymentsTotal, username := e.Username,
          created := created.String, updated := updated.String,
          user_defined_fields := e.UserDefinedFields.map fun udf =>
            { label := udf.Label, name := udf.Name, example_ := udf.Example,
              one_of := udf.OneOf, many_of := udf.ManyOf, default_ := udf.Default } } := by
  simp [resourceLinodeStackscriptRead, hid, World.GetStackscript, hget, hcr, hup,
    setStackScriptUserDefinedFields]

/-- Instance of the above: an in-memory remote holding entity 123. -/
theorem read_copies_entity_with_timestamps_witness :
    (ParseInt (sampleData "123").id = .ok 123 ∧
      memClient.GetStackscript [entityOf 123 ⟨"web", "desc", ["a", "b"], true, "r1", "echo"⟩] 123 =
        (.ok (entityOf 123 ⟨"web", "desc", ["a", "b"], true, "r1", "echo"⟩),
          [entityOf 123 ⟨"web", "desc", ["a", "b"], true, "r1", "echo"⟩])) ∧
    (resourceLinodeStackscriptRead id memClient (sampleData "123")
        ⟨[entityOf 123 ⟨"web", "desc", ["a", "b"], true, "r1", "echo"⟩], []⟩).err = none ∧
      (resourceLinodeStackscriptRead id memClient (sampleData "123")
        ⟨[entityOf 123 ⟨"web", "desc", ["a", "b"], true, "r1", "echo"⟩], []⟩).panicked = false ∧
      (resourceLinodeStackscriptRead id memClient (sampleData "123")
        ⟨[entityOf 123 ⟨"web", "desc", ["a", "b"], true, "r1", "echo"⟩], []⟩).d =
        { id := "123", label := "web", script := "echo", description := "desc",
          rev_note := "r1", is_public := true, images := ["a", "b"],
          deployments_active := 0, user_gravatar_id := "g",
          deployments_total := 0, username := "owner",
          created := "2020-01-01 00:00:00 +0000 UTC", updated := "2020-01-01 00:00:00 +0000 UTC",
          user_defined_fields := [] } :=
  ⟨⟨rfl, rfl⟩,
    read_copies_entity_with_timestamps id memClient (sampleData "123")
      ⟨[entityOf 123 ⟨"web", "desc", ["a", "b"], true, "r1", "echo"⟩], []⟩ 123
      (entityOf 123 ⟨"web", "desc", ["a", "b"], true, "r1", "echo"⟩) _ _ _ rfl rfl rfl rfl⟩

/-- The read callback on an entity with a nil timestamp: when the identifier is
numeric and the fetch succeeds with an entity whose `Created` or `Updated` is
nil, the callback panics; `created` (and, when `Created` is nil, `updated` too)
keeps the value it had. -/
theorem read_panics_without_timestamp {R : Type} (quote : String → String)
    (client : Client R) (d : ResourceData) (w : World R) (id : Int) (e : Stackscript) (r1 : R)
    (hid : ParseInt d.id = .ok id)
    (hget : client.GetStackscript w.remote id = (.ok e, r1))
    (hnil : e.Created = none ∨ e.Updated = none) :
    (resourceLinodeStackscriptRead quote client d w).panicked = true ∧
      (resourceLinodeStackscriptRead quote client d w).d.updated = d.updated ∧
      (e.Created = none → (resourceLinodeStackscriptRead quote client d w).d.created = d.created) := by
  cases hcr : e.Created with
  | none => simp [resourceLinodeStackscriptRead, hid, World.GetStackscript, hget, hcr]
  | some created =>
    have hup : e.Updated = none := by
      rcases hnil with h | h
      · rw [hcr] at h; cases h
      · exact h
    simp [resourceLinodeStackscriptRead, hid, World.GetStackscript, hget, hcr, hup]

/-- Claim C7 at the failing input: the identifier is 123 and the fetch succeeds
with an entity whose `Created` is nil. The read callback copies label, script,
description, is_public, images, rev_note, the two deployment counts, username
and user_gravatar_id, and then panics on `stackscript.Created.String()`: it does
not return, and `created` and `updated` still hold what they held before. -/
theorem read_panics_on_nil_created :
    ParseInt (sampleData "123").id = .ok 123 ∧
      memClient.GetStackscript [noCreated] 123 = (.ok noCreated, [noCreated]) ∧
      noCreated.Created = none ∧
      (resourceLinodeStackscriptRead id memClient (sampleData "123")
        ⟨[noCreated], []⟩).panicked = true ∧
      (resourceLinodeStackscriptRead id memClient (sampleData "123") ⟨[noCreated], []⟩).d =
        { sampleData "123" with
          label := "web", script := "echo", description := "desc", is_public := true,
          images := ["a", "b"], rev_note := "r1", username := "owner",
          user_gravatar_id := "g" } ∧
      (resourceLinodeStackscriptRead id memClient (sampleData "123")
        ⟨[noCreated], []⟩).d.created = "" ∧
      (resourceLinodeStackscriptRead id memClient (sampleData "123")
        ⟨[noCreated], []⟩).d.updated = "" :=
  ⟨rfl, rfl, rfl, rfl, rfl, rfl, rfl⟩

/-- Claim C5: when the identifier is numeric, the update callback sends, as its
first call, a payload that carries all six settable fields of the resource data,
and the create callback on the same resource data sends, as its first call, a
payload with the same six values; the image lists hold the same elements in the
same order. -/
theorem update_payload_eq_create_payload {R : Type} (quote : String → String)
    (client : Client R) (d : ResourceData) (w : World R) (id : Int)
    (hid : ParseInt d.id = .ok id) :
    ∃ (uo : StackscriptUpdateOptions) (co : StackscriptCreateOptions) (restU restC : List Call),
      (resourceLinodeStackscriptUpdate quote client d w).world.calls =
          w.calls ++ Call.update id uo :: restU ∧
        (resourceLinodeStackscriptCreate quote (some client) d w).world.calls =
          w.calls ++ Call.create co :: restC ∧
        (uo.Label = d.label ∧ uo.Script = d.script ∧ uo.Description = d.description ∧
          uo.IsPublic = d.is_public ∧ uo.RevNote = d.rev_note ∧ uo.Images = d.images) ∧
        (uo.Label = co.Label ∧ uo.Script = co.Script ∧ uo.Description = co.Description ∧
          uo.IsPublic = co.IsPublic ∧ uo.RevNote = co.RevNote ∧ uo.Images = co.Images) := by
  obtain ⟨restU, hU⟩ := update_calls quote client d w id hid
  obtain ⟨restC, hC⟩ := create_calls quote client d w
  exact ⟨_, _, restU, restC, hU, hC, ⟨rfl, rfl, rfl, rfl, rfl, rfl⟩, ⟨rfl, rfl, rfl, rfl, rfl, rfl⟩⟩

/-- Instance of C5: the payloads sent for identifier 123 on an empty in-memory
remote. -/
theorem update_payload_eq_create_payload_witness :
    ParseInt (sampleData "123").id = .ok 123 ∧
    ∃ (uo : StackscriptUpdateOptions) (co : StackscriptCreateOptions) (restU restC : List Call),
      (resourceLinodeStackscriptUpdate id memClient (sampleData "123") ⟨[], []⟩).world.calls =
          [] ++ Call.update 123 uo :: restU ∧
        (resourceLinodeStackscriptCreate id (some memClient) (sampleData "123")
            ⟨[], []⟩).world.calls = [] ++ Call.create co :: restC ∧
        (uo.Label = "setup" ∧ uo.Script = "#!/bin/bash" ∧ uo.Description = "d" ∧
          uo.IsPublic = false ∧ uo.RevNote = "" ∧
          uo.Images = ["linode/ubuntu20.04", "linode/debian10"]) ∧
        (uo.Label = co.Label ∧ uo.Script = co.Script ∧ uo.Description = co.Description ∧
          uo.IsPublic = co.IsPublic ∧ uo.RevNote = co.RevNote ∧ uo.Images = co.Images) :=
  ⟨rfl, update_payload_eq_create_payload id memClient (sampleData "123") ⟨[], []⟩ 123 rfl⟩

/-- Claim C8: when the create call succeeds with an entity whose ID is a Go `int`,
the create callback returns exactly what the read callback returns on the
resource data whose identifier is the decimal string of that ID; parsing that
string gives the ID back, so the calls made are the create call followed by one
fetch of that ID. -/
theorem create_stores_id_then_reads {R : Type} (quote : String → String) (client : Client R)
    (d : ResourceData) (w : World R) (e : Stackscript) (r1 : R)
    (hc : client.CreateStackscript w.remote
      { Label := d.label, Script := d.script, Description := d.description,
        IsPublic := d.is_public, RevNote := d.rev_note, Images := d.images } = (.ok e, r1))
    (hrange : inInt64 e.ID) :
    resourceLinodeStackscriptCreate quote (some client) d w =
        resourceLinodeStackscriptRead quote client { d with id := fmtD e.ID }
          ⟨r1, w.calls ++ [Call.create
            { Label := d.label, Script := d.script, Description := d.description,
              IsPublic := d.is_public, RevNote := d.rev_note, Images := d.images }]⟩ ∧
      ParseInt (fmtD e.ID) = .ok e.ID ∧
      (resourceLinodeStackscriptCreate quote (some client) d w).world.calls =
        w.calls ++ [Call.create
          { Label := d.label, Script := d.script, Description := d.description,
            IsPublic := d.is_public, RevNote := d.rev_note, Images := d.images },
          Call.get e.ID] ∧
      (resourceLinodeStackscriptCreate quote (some client) d w).world.remote =
        (client.GetStackscript r1 e.ID).2 := by
  have hp := ParseInt_fmtD e.ID hrange
  have h1 : resourceLinodeStackscriptCreate quote (some client) d w =
      resourceLinodeStackscriptRead quote client { d with id := fmtD e.ID }
        ⟨r1, w.calls ++ [Call.create
          { Label := d.label, Script := d.script, Description := d.description,
            IsPublic := d.is_public, RevNote := d.rev_note, Images := d.images }]⟩ := by
    simp [resourceLinodeStackscriptCreate, createOpts_images, World.CreateStackscript, hc]
  refine ⟨h1, hp, ?_, ?_⟩
  · rw [h1]
    cases hget : (client.GetStackscript r1 e.ID).1 with
    | error ce =>
      by_cases hnf : ce.isNotFound = true
      · simp [resourceLinodeStackscriptRead, hp, World.GetStackscript, hget, hnf]
      · simp [resourceLinodeStackscriptRead, hp, World.GetStackscript, hget, hnf]
    | ok e1 =>
      cases hcr : e1.Created <;> cases hup : e1.Updated <;>
        simp [resourceLinodeStackscriptRead, hp, World.GetStackscript, hget, hcr, hup]
  · rw [h1]
    cases hget : (client.GetStackscript r1 e.ID).1 with
    | error ce =>
      by_cases hnf : ce.isNotFound = true
      · simp [resourceLinodeStackscriptRead, hp, World.GetStackscript, hget, hnf]
      · simp [resourceLinodeStackscriptRead, hp, World.GetStackscript, hget, hnf]
    | ok e1 =>
      cases hcr : e1.Created <;> cases hup : e1.Updated <;>
        simp [resourceLinodeStackscriptRead, hp, World.GetStackscript, hget, hcr, hup]

/-- Instance of C8: creating on an empty in-memory remote, which assigns ID 123. -/
theorem create_stores_id_then_reads_witness :
    (memClient.CreateStackscript []
        { Label := "setup", Script := "#!/bin/bash", Description := "d", IsPublic := false,
          RevNote := "", Images := ["linode/ubuntu20.04", "linode/debian10"] } =
        (.ok (entityOf 123 ⟨"setup", "d", ["linode/ubuntu20.04", "linode/debian10"], false, "",
            "#!/bin/bash"⟩),
          [entityOf 123 ⟨"setup", "d", ["linode/ubuntu20.04", "linode/debian10"], false, "",
            "#!/bin/bash"⟩]) ∧ inInt64 123) ∧
    resourceLinodeStackscriptCreate id (some memClient) (sampleData "") ⟨[], []⟩ =
        resourceLinodeStackscriptRead id memClient { sampleData "" with id := fmtD 123 }
          ⟨[entityOf 123 ⟨"setup", "d", ["linode/ubuntu20.04", "linode/debian10"], false, "",
              "#!/bin/bash"⟩],
            [] ++ [Call.create
              { Label := "setup", Script := "#!/bin/bash", Description := "d", IsPublic := false,
                RevNote := "", Images := ["linode/ubuntu20.04", "linode/debian10"] }]⟩ ∧
      ParseInt (fmtD 123) = .ok 123 ∧
      (resourceLinodeStackscriptCreate id (some memClient) (sampleData "") ⟨[], []⟩).world.calls =
        [] ++ [Call.create
          { Label := "setup", Script := "#!/bin/bash", Description := "d", IsPublic := false,
            RevNote := "", Images := ["linode/ubuntu20.04", "linode/debian10"] },
          Call.get 123] ∧
      (resourceLinodeStackscriptCreate id (some memClient) (sampleData "") ⟨[], []⟩).world.remote =
        (memClient.GetStackscript
          [entityOf 123 ⟨"setup", "d", ["linode/ubuntu20.04", "linode/debian10"], false, "",
            "#!/bin/bash"⟩] 123).2 :=
  ⟨⟨rfl, by decide⟩,
    create_stores_id_then_reads id memClient (sampleData "") ⟨[], []⟩
      (entityOf 123 ⟨"setup", "d", ["linode/ubuntu20.04", "linode/debian10"], false, "",
        "#!/bin/bash"⟩) _ rfl (by decide)⟩

/-- The decimal string of zero, of negative IDs and of the two ends of the 64-bit
range parse back to the same integer. -/
theorem ParseInt_fmtD_examples :
    ParseInt (fmtD 0) = .ok 0 ∧ ParseInt (fmtD (-5)) = .ok (-5) ∧
      fmtD (-5) = "-5" ∧ fmtD 0 = "0" ∧
      ParseInt (fmtD (-9223372036854775808)) = .ok (-9223372036854775808) ∧
      ParseInt (fmtD 9223372036854775807) = .ok 9223372036854775807 :=
  ⟨ParseInt_fmtD 0 (by decide), ParseInt_fmtD (-5) (by decide), by decide, by decide,
    ParseInt_fmtD _ (by decide), ParseInt_fmtD _ (by decide)⟩

/-- Claim C4: create-then-read round trip. Against a remote that stores the fields
of the create payload unchanged and returns them on fetch, when the create
callback returns no error the label, script, description, is_public, rev_note
and images of the resource data are the ones it was called with. -/
theorem create_read_round_trip {R : Type} (quote : String → String) (client : Client R)
    (d : ResourceData) (w : World R)
    (hstore : StoresCreatePayload client w.remote)
    (hok : (resourceLinodeStackscriptCreate quote (some client) d w).err = none) :
    (resourceLinodeStackscriptCreate quote (some client) d w).d.label = d.label ∧
      (resourceLinodeStackscriptCreate quote (some client) d w).d.script = d.script ∧
      (resourceLinodeStackscriptCreate quote (some client) d w).d.description = d.description ∧
      (resourceLinodeStackscriptCreate quote (some client) d w).d.is_public = d.is_public ∧
      (resourceLinodeStackscriptCreate quote (some client) d w).d.rev_note = d.rev_note ∧
      (resourceLinodeStackscriptCreate quote (some client) d w).d.images = d.images := by
  cases hc : client.CreateStackscript w.remote
      { Label := d.label, Script := d.script, Description := d.description,
        IsPublic := d.is_public, RevNote := d.rev_note, Images := d.images } with
  | mk res r1 =>
    cases res with
    | error ce =>
      simp [resourceLinodeStackscriptCreate, createOpts_images, World.CreateStackscript, hc] at hok
    | ok e =>
      obtain ⟨hrange, e1, r2, hget, hl, hs, hde, hp, hr, hi⟩ := hstore _ e r1 hc
      have hparse := ParseInt_fmtD e.ID hrange
      cases hcr : e1.Created <;> cases hup : e1.Updated <;>
        simp [resourceLinodeStackscriptCreate, createOpts_images, World.CreateStackscript, hc,
          resourceLinodeStackscriptRead, hparse, World.GetStackscript, hget,
          setStackScriptUserDefinedFields, hl, hs, hde, hp, hr, hi, hcr, hup]

/-- Instance of C4: creating on an empty in-memory remote. -/
theorem create_read_round_trip_witness :
    (StoresCreatePayload memClient [] ∧
      (resourceLinodeStackscriptCreate id (some memClient) (sampleData "") ⟨[], []⟩).err = none) ∧
    (resourceLinodeStackscriptCreate id (some memClient) (sampleData "") ⟨[], []⟩).d.label =
        "setup" ∧
      (resourceLinodeStackscriptCreate id (some memClient) (sampleData "") ⟨[], []⟩).d.script =
        "#!/bin/bash" ∧
      (resourceLinodeStackscriptCreate id (some memClient) (sampleData "")
        ⟨[], []⟩).d.description = "d" ∧
      (resourceLinodeStackscriptCreate id (some memClient) (sampleData "")
        ⟨[], []⟩).d.is_public = false ∧
      (resourceLinodeStackscriptCreate id (some memClient) (sampleData "") ⟨[], []⟩).d.rev_note =
        "" ∧
      (resourceLinodeStackscriptCreate id (some memClient) (sampleData "") ⟨[], []⟩).d.images =
        ["linode/ubuntu20.04", "linode/debian10"] :=
  ⟨⟨memClient_stores_create_payload, rfl⟩,
    create_read_round_trip id memClient (sampleData "") ⟨[], []⟩
      memClient_stores_create_payload rfl⟩

/-- Claim C10 at the failing input: for identifier 7 and a fetch that fails with a
500 error, the read callback returns the message
`Error finding the specified Linode Stackscript: [500] boom`, which names the
entity kind and holds the underlying message but contains neither the decimal ID
nor the identifier string. -/
theorem read_failure_message_omits_id :
    ParseInt (sampleData "7").id = .ok 7 ∧
      (failClient ⟨some 500, "[500] boom"⟩).GetStackscript () 7 =
        (.error ⟨some 500, "[500] boom"⟩, ()) ∧
      (resourceLinodeStackscriptRead id (failClient ⟨some 500, "[500] boom"⟩) (sampleData "7")
        ⟨(), []⟩).err = some "Error finding the specified Linode Stackscript: [500] boom" ∧
      ¬ contains "Error finding the specified Linode Stackscript: [500] boom" (fmtD 7) ∧
      ¬ contains "Error finding the specified Linode Stackscript: [500] boom"
        (sampleData "7").id :=
  ⟨rfl, rfl, rfl, by decide, by decide⟩

/-- The sibling paths carry the ID. On a numeric identifier, when the update call
fails, and when the delete call fails with an error that is not a 404 API error,
the message of the returned error names the entity kind, contains the decimal ID
and contains the message of the underlying error. -/
theorem update_delete_messages_carry_id {R : Type} (quote : String → String)
    (client : Client R) (d : ResourceData) (w : World R) (id : Int)
    (hid : ParseInt d.id = .ok id) :
    (∀ e r1,
      client.UpdateStackscript w.remote id
          { Label := d.label, Script := d.script, Description := d.description,
            IsPublic := d.is_public, RevNote := d.rev_note, Images := d.images } = (.error e, r1) →
        ∃ msg, (resourceLinodeStackscriptUpdate quote client d w).err = some msg ∧
          contains msg "Linode Stackscript" ∧ contains msg (fmtD id) ∧ contains msg e.Error) ∧
    (∀ e r1, client.DeleteStackscript w.remote id = (some e, r1) → e.apiCode ≠ some 404 →
        ∃ msg, (resourceLinodeStackscriptDelete client d w).err = some msg ∧
          contains msg "Linode Stackscript" ∧ contains msg (fmtD id) ∧ contains msg e.Error) := by
  refine ⟨?_, ?_⟩
  · intro e r1 hu
    refine ⟨"Error updating Linode Stackscript " ++ fmtD id ++ ": " ++ e.Error, ?_, ?_, ?_, ?_⟩
    · simp [resourceLinodeStackscriptUpdate, hid, updateOpts_images, World.UpdateStackscript, hu]
    · have h := contains_mid "Error updating " "Linode Stackscript"
        (" " ++ fmtD id ++ ": " ++ e.Error)
      have e1 : "Error updating " ++ "Linode Stackscript" ++ (" " ++ fmtD id ++ ": " ++ e.Error) =
          "Error updating Linode Stackscript " ++ fmtD id ++ ": " ++ e.Error := by
        have : "Error updating Linode Stackscript " =
            "Error updating " ++ "Linode Stackscript" ++ " " := by decide
        rw [this]; simp only [String.append_assoc]
      rwa [e1] at h
    · have h := contains_mid "Error updating Linode Stackscript " (fmtD id) (": " ++ e.Error)
      rwa [← String.append_assoc] at h
    · have h := contains_mid ("Error updating Linode Stackscript " ++ fmtD id ++ ": ") e.Error ""
      rwa [String.append_empty] at h
  · intro e r1 hdel h404
    refine ⟨"Error deleting Linode Stackscript " ++ fmtD id ++ ": " ++ e.Error, ?_, ?_, ?_, ?_⟩
    · simp [resourceLinodeStackscriptDelete, hid, World.DeleteStackscript, hdel,
        ClientError.isNotFound, h404]
    · have h := contains_mid "Error deleting " "Linode Stackscript"
        (" " ++ fmtD id ++ ": " ++ e.Error)
      have e1 : "Error deleting " ++ "Linode Stackscript" ++ (" " ++ fmtD id ++ ": " ++ e.Error) =
          "Error deleting Linode Stackscript " ++ fmtD id ++ ": " ++ e.Error := by
        have : "Error deleting Linode Stackscript " =
            "Error deleting " ++ "Linode Stackscript" ++ " " := by decide
        rw [this]; simp only [String.append_assoc]
      rwa [e1] at h
    · have h := contains_mid "Error deleting Linode Stackscript " (fmtD id) (": " ++ e.Error)
      rwa [← String.append_assoc] at h
    · have h := contains_mid ("Error deleting Linode Stackscript " ++ fmtD id ++ ": ") e.Error ""
      rwa [String.append_empty] at h

/-- Instance of the above: identifier 7 on a remote where every call fails with
the 500 error for which the message of the read callback has no ID. -/
theorem update_delete_messages_carry_id_witness :
    ParseInt (sampleData "7").id = .ok 7 ∧
    (∃ msg, (resourceLinodeStackscriptUpdate id (failClient ⟨some 500, "[500] boom"⟩)
          (sampleData "7") ⟨(), []⟩).err = some msg ∧
        contains msg "Linode Stackscript" ∧ contains msg (fmtD 7) ∧ contains msg "[500] boom") ∧
    (∃ msg, (resourceLinodeStackscriptDelete (failClient ⟨some 500, "[500] boom"⟩)
          (sampleData "7") ⟨(), []⟩).err = some msg ∧
        contains msg "Linode Stackscript" ∧ contains msg (fmtD 7) ∧ contains msg "[500] boom") :=
  ⟨rfl,
    (update_delete_messages_carry_id id (failClient ⟨some 500, "[500] boom"⟩) (sampleData "7")
      ⟨(), []⟩ 7 rfl).1 ⟨some 500, "[500] boom"⟩ () rfl,
    (update_delete_messages_carry_id id (failClient ⟨some 500, "[500] boom"⟩) (sampleData "7")
      ⟨(), []⟩ 7 rfl).2 ⟨some 500, "[500] boom"⟩ () rfl (by decide)⟩

end LinodeStackscript
